import Mathlib

/-!
Verification of `blender_addon_dev.py` (a Blender add-on packaging and
install tool) against its natural-language specification.

The development is a shallow embedding: every external effect (the file
system, subprocess invocations of the Blender executable, `os.kill`,
process launching) is modelled as explicit input data, and each Python
function is translated into a pure Lean function over that data.  Python
exceptions are modelled with an explicit `Except`-style channel where the
control flow of the source depends on them.
-/

namespace BlenderAddonDev

/-! ## File-system model

A directory tree.  `FSTree.file n` is a regular file named `n`,
`FSTree.dir n cs` is a directory named `n` whose entries, in the order
`os.scandir`/`os.walk` would list them, are `cs`.
-/

inductive FSTree where
  | file (name : String)
  | dir (name : String) (children : List FSTree)

/-- The name of a directory entry (`Path.name`). -/
def FSTree.entryName : FSTree → String
  | .file n => n
  | .dir n _ => n

/-! ## Archiver (`create_addon_zip`, lines 116-162)

Source, line 147: `dirs[:] = [d for d in dirs if d not in ['__pycache__', '.git']]`. -/

def isPrunedDirName (d : String) : Bool :=
  d == "__pycache__" || d == ".git"

/-- Source, line 151: `any(file.endswith(ext) for ext in ['.pyc', '.pyo', '.DS_Store'])`. -/
def isSkippedFileName (f : String) : Bool :=
  [".pyc", ".pyo", ".DS_Store"].any (fun ext => ext.data.isSuffixOf f.data)

/-- The files of one directory level, each as a one-component relative path,
with the skipped suffixes filtered out (the `for file in files` loop body,
lines 149-158). -/
def fileEntries : List FSTree → List (List String)
  | [] => []
  | .file f :: ts => (if isSkippedFileName f then [] else [[f]]) ++ fileEntries ts
  | .dir _ _ :: ts => fileEntries ts

/-- As `fileEntries` but without the suffix exclusion: all files of one level. -/
def allFileEntries : List FSTree → List (List String)
  | [] => []
  | .file f :: ts => [f] :: allFileEntries ts
  | .dir _ _ :: ts => allFileEntries ts

/-- The archive entries contributed by the subdirectories of one level, in
`os.walk` top-down order: a pruned subdirectory (`__pycache__`, `.git`) is not
descended into at all; otherwise the subdirectory's own files come first,
then its subdirectories'. -/
def zipDirs : List FSTree → List (List String)
  | [] => []
  | .file _ :: ts => zipDirs ts
  | .dir d cs :: ts =>
      (if isPrunedDirName d then []
       else (fileEntries cs ++ zipDirs cs).map (fun p => d :: p)) ++ zipDirs ts

/-- As `zipDirs` but with no pruning and no file exclusion: every file below
one level's subdirectories. -/
def allDirs : List FSTree → List (List String)
  | [] => []
  | .file _ :: ts => allDirs ts
  | .dir d cs :: ts =>
      ((allFileEntries cs ++ allDirs cs).map (fun p => d :: p)) ++ allDirs ts

/-- The archive member paths produced by walking the add-on directory
(lines 143-158): `arcname = file_path.relative_to(addon_dir.parent)`, so each
path starts with the add-on directory's own name.  `os.walk` of a non-directory
yields nothing. -/
def zipMembersOf : FSTree → List (List String)
  | .file _ => []
  | .dir n cs => (fileEntries cs ++ zipDirs cs).map (fun p => n :: p)

/-- All files below the directory, relative to its parent, no exclusions. -/
def allMembersOf : FSTree → List (List String)
  | .file _ => []
  | .dir n cs => ((allFileEntries cs ++ allDirs cs).map (fun p => n :: p))

/-- Specification-side filter on a member path *after* the leading add-on
directory name: every intermediate component must not be a pruned directory
name and the final component (the file name) must not have a skipped suffix. -/
def restOk : List String → Bool
  | [] => false
  | [f] => !isSkippedFileName f
  | d :: rest => !isPrunedDirName d && restOk rest

/-- Specification-side filter on a full member path (first component is the
add-on directory's name, which the walk never prunes). -/
def pathOk : List String → Bool
  | [] => false
  | _ :: rest => restOk rest

/-- `(addon_dir / "__init__.py").exists()` (line 124): true when the directory
has an entry of that name; `Path.exists` does not care whether the entry is a
regular file. -/
def hasInitEntry : FSTree → Bool
  | .file _ => false
  | .dir _ cs => cs.any (fun c => c.entryName == "__init__.py")

/-- Specification-side notion: the directory contains `__init__.py` as a
regular *file* (the spec's "entry-point file"). -/
def hasInitFile : FSTree → Bool
  | .file _ => false
  | .dir _ cs =>
      cs.any (fun c => match c with
        | .file f => f == "__init__.py"
        | .dir _ _ => false)

/-- Observable outcome of one `create_addon_zip` call. -/
structure ZipOutcome where
  /-- The value returned to the caller: the output archive path (as path
  components below the source directory's parent), or `none` when the
  function returned `None`. -/
  returned : Option (List String)
  /-- The member paths of the archive that was written, or `none` when no
  archive was written. -/
  written : Option (List (List String))
  /-- Whether a pre-existing archive at the output path was deleted
  (`output_zip.unlink()`, line 139). -/
  deletedExisting : Bool
deriving DecidableEq

/-- `create_addon_zip(addon_dir, addon_name)` (lines 116-162) with the default
output path `addon_dir.parent / f"{addon_name}.zip"`.  `tree` is the
file-system state at `addon_dir` (`none`: the path does not exist);
`zipExists` says whether an archive already exists at the output path. -/
def create_addon_zip (tree : Option FSTree) (addon_name : String) (zipExists : Bool) :
    ZipOutcome :=
  match tree with
  | none =>
      -- line 120: `if not addon_dir.exists(): ... return None`
      { returned := none, written := none, deletedExisting := false }
  | some t =>
      if hasInitEntry t then
        -- lines 137-158: delete any existing archive, then walk and write
        { returned := some [addon_name ++ ".zip"]
          written := some (zipMembersOf t)
          deletedExisting := zipExists }
      else
        -- line 124: `if not (addon_dir / "__init__.py").exists(): ... return None`
        { returned := none, written := none, deletedExisting := false }

/-! ## Name auto-detection (`detect_addon_name_from_bl_info`, lines 53-79)

The two `re.search` calls are embedded as explicit scanners over `List Char`
with the semantics of the concrete patterns used by the source:
`r'bl_info\s*=\s*\{([^}]+)\}'` and
`r"['\"]name['\"]\s*:\s*['\"]([^'\"]+)['\"]"`.
Both patterns are deterministic: greedy `\s*` is followed by a
non-whitespace literal and greedy `[^X]+` is followed by a character in `X`,
so maximal munch needs no backtracking, and `re.search` returns the match at
the leftmost starting position. -/

/-- Python's `\s` on ASCII text: space, tab, newline, carriage return,
vertical tab, form feed. -/
def pySpace (c : Char) : Bool :=
  c = ' ' || c = '\t' || c = '\n' || c = '\r' || c = '\x0b' || c = '\x0c'

/-- A quote character for the name pattern's `['\"]` classes. -/
def isQuoteChar (c : Char) : Bool :=
  c = '"' || c = '\x27'

/-- Try to match `bl_info\s*=\s*\{([^}]+)\}` anchored at the start of `s`,
returning the capture group. -/
def matchBlInfoAt (s : List Char) : Option (List Char) :=
  if "bl_info".data.isPrefixOf s then
    match (s.drop 7).dropWhile pySpace with
    | '=' :: s2 =>
        match s2.dropWhile pySpace with
        | '\x7b' :: s4 =>
            let grp := s4.takeWhile (fun c => c ≠ '\x7d')
            match s4.drop grp.length with
            | '\x7d' :: _ => if grp.isEmpty then none else some grp
            | _ => none
        | _ => none
    | _ => none
  else none

/-- `re.search` of the `bl_info` pattern: the match at the leftmost position. -/
def searchBlInfo : List Char → Option (List Char)
  | [] => none
  | c :: rest =>
      match matchBlInfoAt (c :: rest) with
      | some g => some g
      | none => searchBlInfo rest

/-- Try to match `['\"]name['\"]\s*:\s*['\"]([^'\"]+)['\"]` anchored at the
start of `s`, returning the capture group. -/
def matchNameAt (s : List Char) : Option (List Char) :=
  match s with
  | q1 :: s1 =>
      if isQuoteChar q1 && "name".data.isPrefixOf s1 then
        match s1.drop 4 with
        | q2 :: s2 =>
            if isQuoteChar q2 then
              match s2.dropWhile pySpace with
              | ':' :: s4 =>
                  match s4.dropWhile pySpace with
                  | q3 :: s6 =>
                      if isQuoteChar q3 then
                        let v := s6.takeWhile (fun c => !isQuoteChar c)
                        match s6.drop v.length with
                        | q4 :: _ =>
                            if isQuoteChar q4 && !v.isEmpty then some v else none
                        | [] => none
                      else none
                  | [] => none
              | _ => none
            else none
        | [] => none
      else none
  | [] => none

/-- `re.search` of the `name` pattern. -/
def searchName : List Char → Option (List Char)
  | [] => none
  | c :: rest =>
      match matchNameAt (c :: rest) with
      | some g => some g
      | none => searchName rest

/-- Line 73: `name.lower().replace(' ', '_').replace('-', '_')`: Python's
`str.lower` on ASCII text, then the two single-character replacements, each a
full pass over the string. -/
def pyNormalize (v : List Char) : List Char :=
  let lowered := v.map Char.toLower
  let r1 := lowered.map (fun c => if c = ' ' then '_' else c)
  r1.map (fun c => if c = '-' then '_' else c)

/-- Specification-side normalization, read off the spec's words: "lowercase,
spaces/hyphens mapped to underscores" as a single per-character map. -/
def specNormalize (v : List Char) : List Char :=
  v.map (fun c => if c = ' ' || c = '-' then '_' else c.toLower)

/-- The state of the `__init__.py` file inside the add-on directory, as
`detect_addon_name_from_bl_info` observes it: `none` — the file does not
exist; `some none` — it exists but opening/reading it raises; `some (some c)`
— reading it yields the text `c`. -/
abbrev InitFileState := Option (Option (List Char))

/-- `detect_addon_name_from_bl_info(addon_dir)` (lines 53-79).  `dirName` is
`Path(addon_dir).name`, the fallback result. -/
def detect_addon_name_from_bl_info (initFile : InitFileState) (dirName : String) :
    Option String :=
  match initFile with
  | none => none                    -- line 57: `return None`
  | some none => none               -- lines 78-79: `except Exception: return None`
  | some (some content) =>
      match searchBlInfo content with
      | some inner =>
          match searchName inner with
          | some v => some (String.mk (pyNormalize v))   -- lines 71-74
          | none => some dirName                          -- line 77 fallback
      | none => some dirName                              -- line 77 fallback

/-! ## Directory auto-detection (`auto_detect_addon_dir`, lines 82-113) -/

/-- Python's `str.startswith`, as a prefix test on the character lists. -/
def pyStartsWith (s pre : String) : Bool :=
  pre.data.isPrefixOf s.data

/-- Contiguous-substring test: Python's `pat in s`. -/
def hasSubSeq (pat : List Char) : List Char → Bool
  | [] => pat.isEmpty
  | c :: rest => pat.isPrefixOf (c :: rest) || hasSubSeq pat rest

/-- `'bl_info' in content` (lines 90, 102). -/
def containsBlInfo (content : List Char) : Bool :=
  hasSubSeq "bl_info".data content

/-- One entry of the current working directory, as `auto_detect_addon_dir`
observes it via `Path.iterdir`. -/
structure CwdEntry where
  name : String
  isDirEntry : Bool
  /-- `(item / "__init__.py").exists()` (line 99). -/
  hasInit : Bool
  /-- Reading `item / "__init__.py"`: `none` — the `open`/`read` raises
  (then the `except Exception: pass` skips the entry); `some c` — the text. -/
  initContent : Option (List Char)

/-- The current working directory, as `auto_detect_addon_dir` observes it. -/
structure Cwd where
  /-- `(current_dir / "__init__.py").exists()` (line 87). -/
  selfHasInit : Bool
  /-- Reading the current directory's own `__init__.py` (`none`: raises). -/
  selfInitContent : Option (List Char)
  entries : List CwdEntry

/-- The current directory itself qualifies (lines 87-91): it has an
`__init__.py` entry whose text reads without error and contains `bl_info`. -/
def selfQualifies (cwd : Cwd) : Bool :=
  cwd.selfHasInit &&
    (match cwd.selfInitContent with
     | some c => containsBlInfo c
     | none => false)

/-- A subdirectory entry qualifies as a candidate (lines 97-105): it is a
directory, its name does not start with a dot, it has an `__init__.py`,
and that file reads without error and contains `bl_info`. -/
def entryQualifies (e : CwdEntry) : Bool :=
  e.isDirEntry && !(pyStartsWith e.name ".") && e.hasInit &&
    (match e.initContent with
     | some c => containsBlInfo c
     | none => false)

/-- Observable outcome of `auto_detect_addon_dir`.  The source returns a
`Path` or `None`; the two `None` cases are distinguished here by the message
the source prints (`multipleFound` prints "Multiple add-on directories
found", `notFound` prints nothing). -/
inductive DetectResult where
  | currentDir
  | subDir (name : String)
  | multipleFound
  | notFound
deriving DecidableEq

/-- `auto_detect_addon_dir()` (lines 82-113). -/
def auto_detect_addon_dir (cwd : Cwd) : DetectResult :=
  if selfQualifies cwd then
    .currentDir                                     -- line 91: `return current_dir`
  else
    match cwd.entries.filter entryQualifies with    -- lines 96-105
    | [e] => .subDir e.name                         -- lines 107-108
    | [] => .notFound                               -- line 113
    | _ => .multipleFound                           -- lines 109-111

/-! ## Process reaper (`kill_blender_processes`, lines 165-245)

Every exception the source can meet here derives from Python's `Exception`
(`ProcessLookupError`, `ValueError` from `int(pid)`, `OSError` from
`subprocess.run`, ...), so a single constructor models them all; an
`Except.error` value stands for such an exception propagating. -/

inductive PyExc where
  | exc (msg : String)
deriving DecidableEq

inductive OSName where
  | darwin
  | linux
  | windows
  | other (name : String)
deriving DecidableEq

/-- Outcome of one `os.kill(int(pid), SIGTERM)` attempt (lines 187-193):
`terminated` — the signal was sent (`killed_count += 1`); `alreadyExited` —
`ProcessLookupError` (line 190, `pass`); `failed` — any other exception
(line 192, a warning is printed, no count). -/
inductive KillAttempt where
  | terminated
  | alreadyExited
  | failed (msg : String)
deriving DecidableEq

/-- The environment one `kill_blender_processes` run observes. -/
structure KillEnv where
  system : OSName
  /-- The `pgrep` call (lines 177-181 / 202-206): its return code, or the
  exception `subprocess.run` raises. -/
  pgrep : Except PyExc Int
  /-- `result.stdout.strip().split('\n')` tokens, each with the outcome of
  the `os.kill` attempt on it (an unparsable token's `int(pid)` failure is a
  `KillAttempt.failed`). -/
  pids : List (String × KillAttempt)
  /-- The `pkill` fallback call (lines 196-198 / 220-222). -/
  pkill : Except PyExc Unit
  /-- The `taskkill` call on Windows (lines 226-230). -/
  taskkill : Except PyExc Unit

/-- The per-pid loop (lines 184-193): empty tokens are skipped (`if pid:`),
a successful signal counts, `ProcessLookupError` and any other exception are
both caught inside the loop, so the loop itself never raises. -/
def countKills : List (String × KillAttempt) → Nat
  | [] => 0
  | (pid, att) :: rest =>
      (if pid ≠ "" then
        match att with
        | .terminated => 1
        | .alreadyExited => 0
        | .failed _ => 0
       else 0) + countKills rest

/-- What the caller of `kill_blender_processes` observes. -/
structure KillRun where
  /-- The returned value (the source returns `True`/`False`, lines 241/245). -/
  retval : Bool
  /-- The final value of the local `killed_count` counter (printed only,
  never returned). -/
  killedCount : Nat
deriving DecidableEq

/-- The body of the outer `try` (lines 174-241): first component is the
result (or the exception escaping the body), second the `killed_count`
accumulated when the body ends or the exception escapes. -/
def killBody (env : KillEnv) : Except PyExc Bool × Nat :=
  match env.system with
  | .darwin | .linux =>
      match env.pgrep with
      | .error e => (.error e, 0)       -- `subprocess.run` for pgrep raised
      | .ok rc =>
          -- line 182/207: only a zero return code yields a pid list
          let count := if rc == 0 then countKills env.pids else 0
          match env.pkill with
          | .error e => (.error e, count)
          | .ok _ => (.ok true, count)  -- line 241: `return True`
  | .windows =>
      match env.taskkill with
      | .error e => (.error e, 0)
      | .ok _ => (.ok true, 1)          -- line 231: `killed_count = 1`
  | .other _ => (.ok true, 0)           -- no platform branch taken

/-- `kill_blender_processes()` (lines 165-245).  The whole body is wrapped in
`try ... except Exception: return False` (lines 174, 243-245), so the result
is `Except.ok` for every environment; an `Except.error` result would model an
exception reaching the caller. -/
def kill_blender_processes (env : KillEnv) : Except PyExc KillRun :=
  match killBody env with
  | (.ok b, c) => .ok { retval := b, killedCount := c }
  | (.error _, c) => .ok { retval := false, killedCount := c }  -- lines 243-245

/-! ## Host script runner outcomes

Each of `uninstall_addon`, the INSTALL stage, and `install_startup_script`
runs `subprocess.run([blender, "--background", "--python-expr", script],
capture_output=True, text=True, timeout=T)`. -/

/-- Outcome of one such invocation: the host completed with a return code and
captured output, the call timed out (`subprocess.TimeoutExpired`), or
`subprocess.run` raised some other exception. -/
inductive RunOutcome where
  | completed (returncode : Int) (stdout stderr : String)
  | timedOut
  | raised (msg : String)
deriving DecidableEq

/-- The stage-local success policy of the INSTALL stage (lines 540/567):
only a completed run with return code `0`. -/
def runSucceeded : RunOutcome → Bool
  | .completed rc _ _ => rc == 0
  | .timedOut => false
  | .raised _ => false

/-- `uninstall_addon(blender_exe, addon_name)` (lines 248-334): returns
`True` on a zero exit (line 325), `True` on a non-zero exit ("warnings",
line 330), and `True` when `subprocess.run` raises, including
`TimeoutExpired` (line 334) — the stage is unconditionally non-fatal. -/
def uninstall_addon (r : RunOutcome) : Bool :=
  match r with
  | .completed rc _ _ => if rc == 0 then true else true
  | .timedOut => true
  | .raised _ => true

/-- `install_startup_script(blender_exe, addon_name)` (lines 337-442):
returns `True` on a zero exit (line 434), `True` on a non-zero exit
(line 439), and `True` when `subprocess.run` raises (line 442). -/
def install_startup_script (r : RunOutcome) : Bool :=
  match r with
  | .completed rc _ _ => if rc == 0 then true else true
  | .timedOut => true
  | .raised _ => true

/-! ## Install orchestrator (`auto_install_to_blender`, lines 445-581) -/

/-- The externally visible stages of the orchestration pipeline. -/
inductive Stage where
  | killStage
  | uninstallStage
  | installStage
  | startupHookStage
  | launchStage
deriving DecidableEq

/-- The environment one `auto_install_to_blender` run observes. -/
structure InstallEnv where
  /-- Whether `find_blender_executable()` (lines 24-50) finds an executable. -/
  blenderFound : Bool
  /-- The environment of the `kill_blender_processes()` call (line 466). -/
  killEnv : KillEnv
  /-- The uninstall script run (line 314). -/
  uninstallRun : RunOutcome
  /-- The install script run (line 533). -/
  installRun : RunOutcome
  /-- The startup-script-install run (line 424). -/
  startupRun : RunOutcome
  /-- Whether the `subprocess.Popen` launch call (lines 555/558) raises. -/
  launchRaises : Bool

/-- What an `auto_install_to_blender` run produces. -/
structure OrchestrationRun where
  /-- The returned value (`True` = overall success). -/
  success : Bool
  /-- The stages that were invoked, in order. -/
  stages : List Stage
deriving DecidableEq

/-- `auto_install_to_blender(zip_path, addon_name, launch_blender)`
(lines 445-581). -/
def auto_install_to_blender (env : InstallEnv) (launch_blender : Bool) :
    OrchestrationRun :=
  if !env.blenderFound then
    -- lines 453-461: manual-install instructions, `return False`
    { success := false, stages := [] }
  else
    -- line 466: `kill_blender_processes()`; its result is not consulted
    let _killed := kill_blender_processes env.killEnv
    -- line 469: `uninstall_addon(...)`; its result is not consulted
    let _uninstalled := uninstall_addon env.uninstallRun
    match env.installRun with
    | .completed rc _ _ =>
        if rc == 0 then
          -- line 544: startup script; its result is not consulted
          let _hook := install_startup_script env.startupRun
          if launch_blender then
            -- lines 547-562: Popen failure is caught and only warned about
            { success := true
              stages := [.killStage, .uninstallStage, .installStage,
                         .startupHookStage, .launchStage] }
          else
            { success := true
              stages := [.killStage, .uninstallStage, .installStage,
                         .startupHookStage] }
        else
          -- lines 567-574: `return False`
          { success := false
            stages := [.killStage, .uninstallStage, .installStage] }
    | .timedOut =>
        -- lines 576-578: `except subprocess.TimeoutExpired: return False`
        { success := false
          stages := [.killStage, .uninstallStage, .installStage] }
    | .raised _ =>
        -- lines 579-581: `except Exception: return False`
        { success := false
          stages := [.killStage, .uninstallStage, .installStage] }

/-! ## CLI driver (`main`, lines 584-679) -/

/-- The parsed command-line arguments. -/
structure Args where
  addon_name : Option String
  addon_dir : Option String
  install : Bool
  launch : Bool

/-- The environment one `main` run observes. -/
structure MainEnv where
  /-- The current working directory, consulted when `--addon-dir` is omitted. -/
  cwd : Cwd
  /-- The file system at the resolved add-on directory path (`none`: the path
  does not exist).  Consulted by the `addon_dir.exists()` check (line 639)
  and by `create_addon_zip`. -/
  dirTree : Option FSTree
  /-- `Path(addon_dir).name` of the resolved directory. -/
  dirBaseName : String
  /-- The `__init__.py` of the resolved directory as
  `detect_addon_name_from_bl_info` observes it. -/
  initFile : InitFileState
  /-- Whether an archive already exists at the output path. -/
  zipExists : Bool
  /-- The environment of the `auto_install_to_blender` call (line 667). -/
  installEnv : InstallEnv

/-- Directory resolution (lines 628-641) succeeds: either auto-detection
found a directory, or the supplied directory exists. -/
def dirResolved (args : Args) (env : MainEnv) : Bool :=
  match args.addon_dir with
  | none =>
      match auto_detect_addon_dir env.cwd with
      | .currentDir => true
      | .subDir _ => true
      | .multipleFound => false
      | .notFound => false
  | some _ => env.dirTree.isSome

/-- Add-on name resolution (lines 644-651): the `--addon-name` argument, then
`detect_addon_name_from_bl_info`, then the directory's base name. -/
def resolvedName (args : Args) (env : MainEnv) : String :=
  match args.addon_name with
  | some n => n
  | none =>
      match detect_addon_name_from_bl_info env.initFile env.dirBaseName with
      | some n => n
      | none => env.dirBaseName

/-- `main()` (lines 584-679): the process exit code. -/
def main (args : Args) (env : MainEnv) : Nat :=
  if !dirResolved args env then
    1                                   -- lines 632-635 / 639-641: `return 1`
  else
    let name := resolvedName args env
    match (create_addon_zip env.dirTree name env.zipExists).returned with
    | none => 1                         -- lines 660-662: `return 1`
    | some _ =>
        if args.install then
          -- lines 665-668: `return 0 if success else 1`
          if (auto_install_to_blender env.installEnv args.launch).success
          then 0 else 1
        else 0                          -- lines 669-678: `return 0`

/-! ## Specification-side notions used to state the claims -/

/-- The spec's `FatalInstallFailure`: "host reported non-zero exit or timed
out during the INSTALL stage". -/
def specFatalInstallFailure (env : InstallEnv) : Prop :=
  (∃ rc out err, env.installRun = .completed rc out err ∧ rc ≠ 0) ∨
    env.installRun = .timedOut

/-- The claim's candidate count for auto-detection: the current directory and
every immediate subdirectory with a qualifying entry point, counted together. -/
def specCandidateCount (cwd : Cwd) : Nat :=
  (if selfQualifies cwd then 1 else 0) + (cwd.entries.filter entryQualifies).length

/-- Auto-detection succeeded (returned a directory rather than `None`). -/
def detectSucceeded : DetectResult → Bool
  | .currentDir => true
  | .subDir _ => true
  | .multipleFound => false
  | .notFound => false

/-- Packaging succeeds for this run: `create_addon_zip`, applied to the
resolved directory and resolved name, returns an archive path. -/
def packagingOk (args : Args) (env : MainEnv) : Bool :=
  (create_addon_zip env.dirTree (resolvedName args env) env.zipExists).returned.isSome

/-! ## Archiver lemmas -/

theorem fileEntries_eq (cs : List FSTree) :
    fileEntries cs = (allFileEntries cs).filter restOk := by
  induction cs with
  | nil => rfl
  | cons t ts ih =>
      cases t with
      | file f =>
          simp only [fileEntries, allFileEntries, List.filter_cons, ih]
          by_cases h : isSkippedFileName f
          · simp [restOk, h]
          · simp [restOk, h]
      | dir d cs' => simpa [fileEntries, allFileEntries] using ih

theorem allFileEntries_ne_nil (cs : List FSTree) :
    ∀ p ∈ allFileEntries cs, p ≠ [] := by
  induction cs with
  | nil => simp [allFileEntries]
  | cons t ts ih =>
      cases t with
      | file f => simpa [allFileEntries] using ih
      | dir d cs' => simpa [allFileEntries] using ih

theorem allDirs_ne_nil (cs : List FSTree) :
    ∀ p ∈ allDirs cs, p ≠ [] := by
  induction cs with
  | nil => simp [allDirs]
  | cons t ts ih =>
      cases t with
      | file f => simpa [allDirs] using ih
      | dir d cs' =>
          intro p hp
          simp only [allDirs, List.mem_append, List.mem_map] at hp
          rcases hp with ⟨q, _, rfl⟩ | hp
          · simp
          · exact ih p hp

theorem restOk_cons (d : String) (p : List String) (hp : p ≠ []) :
    restOk (d :: p) = (!isPrunedDirName d && restOk p) := by
  cases p with
  | nil => exact absurd rfl hp
  | cons a as => rfl

/-- The pruned walk is exactly the unpruned walk filtered by the
per-path exclusion predicate. -/
theorem zipDirs_eq (cs : List FSTree) :
    zipDirs cs = (allDirs cs).filter restOk := by
  induction cs using zipDirs.induct with
  | case1 => simp [zipDirs, allDirs]
  | case2 f ts ih => simpa [zipDirs, allDirs] using ih
  | case3 d cs' ts ih1 ih2 =>
      have hne : ∀ p ∈ allFileEntries cs' ++ allDirs cs', p ≠ [] := by
        intro p hp
        rcases List.mem_append.mp hp with h | h
        · exact allFileEntries_ne_nil cs' p h
        · exact allDirs_ne_nil cs' p h
      have hcongr :
          (allFileEntries cs' ++ allDirs cs').filter (fun p => restOk (d :: p))
            = (allFileEntries cs' ++ allDirs cs').filter
                (fun p => !isPrunedDirName d && restOk p) := by
        apply List.filter_congr
        intro p hp
        exact restOk_cons d p (hne p hp)
      simp only [zipDirs, allDirs, List.filter_append, List.filter_map,
        Function.comp_def, hcongr, ih2]
      by_cases hd : isPrunedDirName d
      · simp [hd]
      · simp [hd, fileEntries_eq, ih1, List.filter_append]

theorem hasInitEntry_of_hasInitFile (t : FSTree) (h : hasInitFile t = true) :
    hasInitEntry t = true := by
  cases t with
  | file n => simp [hasInitFile] at h
  | dir n cs =>
      simp only [hasInitFile, List.any_eq_true] at h
      obtain ⟨c, hc, hcf⟩ := h
      cases c with
      | file f =>
          simp only [hasInitEntry, List.any_eq_true]
          exact ⟨.file f, hc, hcf⟩
      | dir _ _ => simp at hcf

theorem zipMembersOf_eq (t : FSTree) :
    zipMembersOf t = (allMembersOf t).filter pathOk := by
  cases t with
  | file n => rfl
  | dir n cs =>
      have hfun : (fun p => pathOk (n :: p)) = restOk := by
        funext p
        rfl
      simp only [zipMembersOf, allMembersOf, List.filter_map, Function.comp_def,
        hfun, fileEntries_eq, zipDirs_eq, List.filter_append]

/-! ## Claim C3 -/

/-- C3: for every existing source directory `D` containing the entry-point
file `__init__.py`, `create_addon_zip` writes an archive whose member list is
exactly the list of all files under `D` — each path relative to `D`'s parent,
i.e. starting with `D`'s name — with the files inside pruned `__pycache__` or
`.git` subdirectories and the files with a `.pyc`, `.pyo` or `.DS_Store`
suffix filtered out. -/
theorem create_addon_zip_member_set (t : FSTree) (addon_name : String)
    (zipExists : Bool) (hinit : hasInitFile t = true) :
    (create_addon_zip (some t) addon_name zipExists).written
      = some ((allMembersOf t).filter pathOk) := by
  have hentry := hasInitEntry_of_hasInitFile t hinit
  simp [create_addon_zip, hentry, zipMembersOf_eq]

/-- Witness for C3 at a concrete directory tree with one excluded file and
one pruned subdirectory. -/
theorem create_addon_zip_member_set_witness :
    hasInitFile (FSTree.dir "my_addon"
      [FSTree.file "__init__.py", FSTree.file "x.pyc",
       FSTree.dir "__pycache__" [FSTree.file "y.py"],
       FSTree.dir "sub" [FSTree.file "a.py"]]) = true ∧
    (create_addon_zip (some (FSTree.dir "my_addon"
      [FSTree.file "__init__.py", FSTree.file "x.pyc",
       FSTree.dir "__pycache__" [FSTree.file "y.py"],
       FSTree.dir "sub" [FSTree.file "a.py"]])) "my_addon" false).written
      = some ((allMembersOf (FSTree.dir "my_addon"
      [FSTree.file "__init__.py", FSTree.file "x.pyc",
       FSTree.dir "__pycache__" [FSTree.file "y.py"],
       FSTree.dir "sub" [FSTree.file "a.py"]])).filter pathOk) ∧
    (allMembersOf (FSTree.dir "my_addon"
      [FSTree.file "__init__.py", FSTree.file "x.pyc",
       FSTree.dir "__pycache__" [FSTree.file "y.py"],
       FSTree.dir "sub" [FSTree.file "a.py"]])).filter pathOk
      = [["my_addon", "__init__.py"], ["my_addon", "sub", "a.py"]] :=
  ⟨by decide, create_addon_zip_member_set _ _ _ (by decide),
   by simp only [allMembersOf, allFileEntries, allDirs]; decide⟩

/-! ## Claim C4 -/

/-- C4 counterexample: a source directory whose `__init__.py` entry is a
*directory*, not a file.  The claim says `create_addon_zip` fails exactly
when the entry-point *file* is absent, but `Path.exists()` (line 124) is
satisfied by a directory of that name, so the call succeeds and returns an
archive path although no entry-point file exists. -/
theorem create_addon_zip_failure_counterexample :
    (create_addon_zip (some (FSTree.dir "demo" [FSTree.dir "__init__.py" []]))
        "demo" false).returned.isSome = true ∧
    hasInitFile (FSTree.dir "demo" [FSTree.dir "__init__.py" []]) = false := by
  decide

/-- C4 amended: `create_addon_zip` fails (returns no archive path) exactly
when the source directory does not exist or it has no entry *named*
`__init__.py` (a directory of that name also passes the source's
`Path.exists()` check); in every failure case no archive is written and no
pre-existing archive is deleted. -/
theorem create_addon_zip_failure_iff (tree : Option FSTree) (addon_name : String)
    (zipExists : Bool) :
    ((create_addon_zip tree addon_name zipExists).returned = none ↔
      (match tree with
       | none => True
       | some t => hasInitEntry t = false)) ∧
    ((create_addon_zip tree addon_name zipExists).returned = none →
      (create_addon_zip tree addon_name zipExists).written = none ∧
      (create_addon_zip tree addon_name zipExists).deletedExisting = false) := by
  cases tree with
  | none => simp [create_addon_zip]
  | some t =>
      by_cases h : hasInitEntry t
      · simp [create_addon_zip, h]
      · have h' : hasInitEntry t = false := by simpa using h
        simp [create_addon_zip, h']

/-- Witness for the amended C4 at a missing directory and at a directory
without an `__init__.py` entry. -/
theorem create_addon_zip_failure_iff_witness :
    ((create_addon_zip none "a" false).returned = none ↔ True) ∧
    ((create_addon_zip none "a" false).returned = none →
      (create_addon_zip none "a" false).written = none ∧
      (create_addon_zip none "a" false).deletedExisting = false) :=
  create_addon_zip_failure_iff none "a" false

/-! ## Claim C5 -/

/-- C5: archive creation is idempotent in membership.  For an unchanged valid
source directory, a second `create_addon_zip` run first deletes the archive
left by the first run and writes an archive with the identical member list
(hence identical member set). -/
theorem create_addon_zip_idempotent (t : FSTree) (addon_name : String)
    (hinit : hasInitFile t = true) :
    (create_addon_zip (some t) addon_name true).deletedExisting = true ∧
    (create_addon_zip (some t) addon_name true).written
      = (create_addon_zip (some t) addon_name false).written ∧
    (create_addon_zip (some t) addon_name false).written.isSome = true := by
  have hentry := hasInitEntry_of_hasInitFile t hinit
  simp [create_addon_zip, hentry]

/-- Witness for C5 at a concrete directory. -/
theorem create_addon_zip_idempotent_witness :
    hasInitFile (FSTree.dir "demo" [FSTree.file "__init__.py"]) = true ∧
    (create_addon_zip (some (FSTree.dir "demo" [FSTree.file "__init__.py"]))
        "demo" true).deletedExisting = true ∧
    (create_addon_zip (some (FSTree.dir "demo" [FSTree.file "__init__.py"]))
        "demo" true).written
      = (create_addon_zip (some (FSTree.dir "demo" [FSTree.file "__init__.py"]))
        "demo" false).written ∧
    (create_addon_zip (some (FSTree.dir "demo" [FSTree.file "__init__.py"]))
        "demo" false).written.isSome = true :=
  ⟨by decide, create_addon_zip_idempotent _ _ (by decide)⟩

/-! ## Normalization lemmas (claim C6) -/

theorem charOfNat_toNat (m : Nat) (h : m < 55296) : (Char.ofNat m).toNat = m := by
  have hv : m.isValidChar := Or.inl h
  rw [Char.ofNat, dif_pos hv]
  simp [Char.ofNatAux, Char.toNat, UInt32.toNat]

/-- `Char.toLower` maps `A`-`Z` into `a`-`z` and fixes everything else, so a
character whose code is outside `a`-`z` is in its image only trivially. -/
theorem toLower_fixes_ne (c t : Char) (ht : t.toNat < 97 ∨ 122 < t.toNat)
    (h : c ≠ t) : c.toLower ≠ t := by
  rw [Char.toLower]
  split
  · rename_i hr
    intro heq
    have hh := congrArg Char.toNat heq
    rw [charOfNat_toNat (c.toNat + 32) (by omega)] at hh
    omega
  · exact h

theorem pyNormalize_char (c : Char) :
    (if (if c.toLower = ' ' then '_' else c.toLower) = '-' then '_'
     else (if c.toLower = ' ' then '_' else c.toLower))
      = (if c = ' ' || c = '-' then '_' else c.toLower) := by
  by_cases hs : c = ' '
  · subst hs; decide
  · by_cases hh : c = '-'
    · subst hh; decide
    · have h1 : c.toLower ≠ ' ' := toLower_fixes_ne c ' ' (by decide) hs
      have h2 : c.toLower ≠ '-' := toLower_fixes_ne c '-' (by decide) hh
      simp [h1, h2, hs, hh]

/-- The source's three-pass normalization (`lower` then two `replace`s)
equals the spec's single per-character map. -/
theorem pyNormalize_eq (v : List Char) : pyNormalize v = specNormalize v := by
  simp only [pyNormalize, specNormalize, List.map_map]
  congr 1
  funext c
  simpa using pyNormalize_char c

/-! ## Claim C6 -/

/-- C6: whenever the entry-point file's text yields a manifest dictionary
body via the source's `bl_info` pattern and a string `name` value via the
source's `name` pattern (the code's operational reading of "the manifest
dictionary contains a string `name` value"), `detect_addon_name_from_bl_info`
returns exactly that value normalized to a module identifier: every space
and hyphen becomes an underscore and every other character is lowercased. -/
theorem detect_addon_name_normalizes (content : List Char) (dirName : String)
    (inner v : List Char)
    (hbl : searchBlInfo content = some inner)
    (hname : searchName inner = some v) :
    detect_addon_name_from_bl_info (some (some content)) dirName
      = some (String.mk (specNormalize v)) := by
  simp [detect_addon_name_from_bl_info, hbl, hname, pyNormalize_eq]

/-- Witness for C6: a manifest with `name: "My Tool"` yields `my_tool`. -/
theorem detect_addon_name_normalizes_witness :
    searchBlInfo "bl_info = \x7b\"name\": \"My Tool\"\x7d".data
      = some "\"name\": \"My Tool\"".data ∧
    searchName "\"name\": \"My Tool\"".data = some "My Tool".data ∧
    detect_addon_name_from_bl_info
        (some (some "bl_info = \x7b\"name\": \"My Tool\"\x7d".data)) "proj"
      = some "my_tool" := by
  refine ⟨by decide, by decide, ?_⟩
  have h := detect_addon_name_normalizes
    "bl_info = \x7b\"name\": \"My Tool\"\x7d".data "proj"
    "\"name\": \"My Tool\"".data "My Tool".data (by decide) (by decide)
  rw [h]
  decide

/-! ## Claim C1 -/

/-- C1: whenever the host script runner reports failure for the INSTALL
stage — the host completed with a non-zero exit code, or the call timed out —
the orchestration's overall result is failure and the STARTUP_HOOK stage
(`install_startup_script`) is never invoked; the hypothesis places no
constraint on the UNINSTALL stage's outcome. -/
theorem install_failure_is_fatal (env : InstallEnv) (launch_blender : Bool)
    (hfound : env.blenderFound = true)
    (hfail : (∃ rc out err, env.installRun = .completed rc out err ∧ rc ≠ 0) ∨
             env.installRun = .timedOut) :
    (auto_install_to_blender env launch_blender).success = false ∧
    Stage.startupHookStage ∉ (auto_install_to_blender env launch_blender).stages := by
  rcases hfail with ⟨rc, out, err, hrun, hrc⟩ | hrun
  · have hrc' : (rc == 0) = false := by simpa using hrc
    simp [auto_install_to_blender, hfound, hrun, hrc']
  · simp [auto_install_to_blender, hfound, hrun]

/-- Witness for C1: a run whose INSTALL stage exits with code 1 while the
UNINSTALL stage exits with code 0. -/
theorem install_failure_is_fatal_witness :
    (auto_install_to_blender
      ⟨true, ⟨.darwin, .ok 0, [], .ok (), .ok ()⟩,
       .completed 0 "" "", .completed 1 "" "", .completed 0 "" "", false⟩
      false).success = false ∧
    Stage.startupHookStage ∉ (auto_install_to_blender
      ⟨true, ⟨.darwin, .ok 0, [], .ok (), .ok ()⟩,
       .completed 0 "" "", .completed 1 "" "", .completed 0 "" "", false⟩
      false).stages :=
  install_failure_is_fatal _ false rfl (Or.inl ⟨1, "", "", rfl, by decide⟩)

/-! ## Claim C2 -/

/-- C2: the UNINSTALL stage cannot change the run's outcome.
`uninstall_addon` returns `True` for every runner outcome (non-zero exit,
timeout, or any other exception), the whole orchestration result is
invariant under replacing the uninstall outcome, the pipeline always
continues past UNINSTALL into the INSTALL stage, and when the INSTALL stage
then succeeds the overall result is success. -/
theorem uninstall_failure_harmless (env : InstallEnv) (launch_blender : Bool)
    (u : RunOutcome) :
    uninstall_addon u = true ∧
    auto_install_to_blender { env with uninstallRun := u } launch_blender
      = auto_install_to_blender env launch_blender ∧
    (env.blenderFound = true →
      Stage.installStage ∈ (auto_install_to_blender env launch_blender).stages) ∧
    (env.blenderFound = true → runSucceeded env.installRun = true →
      (auto_install_to_blender env launch_blender).success = true) := by
  refine ⟨by cases u <;> simp [uninstall_addon], ?_, ?_, ?_⟩
  · cases env
    rfl
  · intro hfound
    rcases hrun : env.installRun with ⟨rc, out, err⟩ | _ | msg
    · by_cases hrc : (rc == 0) = true
      · cases launch_blender <;> simp_all [auto_install_to_blender]
      · cases launch_blender <;> simp_all [auto_install_to_blender]
    · simp [auto_install_to_blender, hfound, hrun]
    · simp [auto_install_to_blender, hfound, hrun]
  · intro hfound hsucc
    rcases hrun : env.installRun with ⟨rc, out, err⟩ | _ | msg
    · rw [hrun] at hsucc
      simp only [runSucceeded] at hsucc
      cases launch_blender <;> simp [auto_install_to_blender, hfound, hrun, hsucc]
    · rw [hrun] at hsucc
      simp [runSucceeded] at hsucc
    · rw [hrun] at hsucc
      simp [runSucceeded] at hsucc

/-- Witness for C2: the uninstall script times out, yet `uninstall_addon`
reports `True`, the run reaches INSTALL, and the run succeeds because the
INSTALL stage exits with code 0. -/
theorem uninstall_failure_harmless_witness :
    uninstall_addon .timedOut = true ∧
    auto_install_to_blender
      { (⟨true, ⟨.linux, .ok 0, [], .ok (), .ok ()⟩,
          .completed 0 "" "", .completed 0 "" "", .completed 0 "" "", false⟩ :
          InstallEnv) with uninstallRun := RunOutcome.timedOut } false
      = auto_install_to_blender
        ⟨true, ⟨.linux, .ok 0, [], .ok (), .ok ()⟩,
         .completed 0 "" "", .completed 0 "" "", .completed 0 "" "", false⟩ false ∧
    Stage.installStage ∈ (auto_install_to_blender
      ⟨true, ⟨.linux, .ok 0, [], .ok (), .ok ()⟩,
       .completed 0 "" "", .completed 0 "" "", .completed 0 "" "", false⟩
      false).stages ∧
    (auto_install_to_blender
      ⟨true, ⟨.linux, .ok 0, [], .ok (), .ok ()⟩,
       .completed 0 "" "", .completed 0 "" "", .completed 0 "" "", false⟩
      false).success = true := by
  have h := uninstall_failure_harmless
    (⟨true, ⟨.linux, .ok 0, [], .ok (), .ok ()⟩,
      .completed 0 "" "", .completed 0 "" "", .completed 0 "" "", false⟩ :
      InstallEnv) false RunOutcome.timedOut
  exact ⟨h.1, h.2.1, h.2.2.1 rfl, h.2.2.2 rfl rfl⟩

/-! ## Claim C8 -/

/-- C8 counterexample: `kill_blender_processes` does not return a count of
terminated processes.  Two runs that terminate one and two processes
respectively both return the same value `True` — the source returns a
boolean (lines 241/245), while `killed_count` is only printed. -/
theorem kill_returns_flag_not_count :
    kill_blender_processes
        ⟨.darwin, .ok 0, [("11", .terminated)], .ok (), .ok ()⟩
      = .ok ⟨true, 1⟩ ∧
    kill_blender_processes
        ⟨.darwin, .ok 0, [("11", .terminated), ("12", .terminated)],
         .ok (), .ok ()⟩
      = .ok ⟨true, 2⟩ ∧
    (1 : Nat) ≠ 2 :=
  ⟨rfl, rfl, by decide⟩

/-- C8 amended: `kill_blender_processes` returns a boolean flag (with the
terminated-process count kept only for logging), and for every environment —
whatever exceptions process enumeration, per-process signalling, or the
fallback sweep raise — the call returns normally to its caller instead of
propagating; in particular a process that already exited
(`ProcessLookupError`) is skipped without aborting the loop, and a run whose
enumeration and sweep succeed returns `True` with the count of successfully
signalled non-empty pid tokens. -/
theorem kill_never_propagates (env : KillEnv) :
    ∃ r : KillRun, kill_blender_processes env = Except.ok r ∧
      ((env.system = .darwin ∨ env.system = .linux) →
        env.pgrep = .ok 0 → env.pkill = .ok () →
        r.retval = true ∧ r.killedCount = countKills env.pids) := by
  obtain ⟨sys, pg, pids, pk, tk⟩ := env
  cases sys with
  | darwin =>
      cases pg with
      | error e =>
          exact ⟨⟨false, 0⟩, rfl, by intro _ hpg; simp at hpg⟩
      | ok rc =>
          cases pk with
          | error e =>
              refine ⟨⟨false, if rc == 0 then countKills pids else 0⟩, rfl, ?_⟩
              intro _ _ hpk
              simp at hpk
          | ok _ =>
              refine ⟨⟨true, if rc == 0 then countKills pids else 0⟩, rfl, ?_⟩
              intro _ hpg _
              have : rc = 0 := by simpa using hpg
              subst this
              simp
  | linux =>
      cases pg with
      | error e =>
          exact ⟨⟨false, 0⟩, rfl, by intro _ hpg; simp at hpg⟩
      | ok rc =>
          cases pk with
          | error e =>
              refine ⟨⟨false, if rc == 0 then countKills pids else 0⟩, rfl, ?_⟩
              intro _ _ hpk
              simp at hpk
          | ok _ =>
              refine ⟨⟨true, if rc == 0 then countKills pids else 0⟩, rfl, ?_⟩
              intro _ hpg _
              have : rc = 0 := by simpa using hpg
              subst this
              simp
  | windows =>
      cases tk with
      | error e =>
          refine ⟨⟨false, 0⟩, rfl, ?_⟩
          rintro (h | h) <;> simp at h
      | ok _ =>
          refine ⟨⟨true, 1⟩, rfl, ?_⟩
          rintro (h | h) <;> simp at h
  | other n =>
      refine ⟨⟨true, 0⟩, rfl, ?_⟩
      rintro (h | h) <;> simp at h

/-- Witness for C8's amended claim: an enumeration that yields one
already-exited process and one live one still returns normally with `True`,
counting only the successfully signalled process. -/
theorem kill_never_propagates_witness :
    kill_blender_processes
        ⟨.linux, .ok 0, [("7", .alreadyExited), ("8", .terminated)],
         .ok (), .ok ()⟩
      = .ok ⟨true, 1⟩ := by
  obtain ⟨r, hr, h⟩ := kill_never_propagates
    ⟨.linux, .ok 0, [("7", .alreadyExited), ("8", .terminated)],
     .ok (), .ok ()⟩
  obtain ⟨h1, h2⟩ := h (Or.inr rfl) rfl rfl
  cases r
  simp_all [countKills]

/-! ## Claim C9 -/

/-- C9 counterexample: with `--install` requested, a run whose directory
resolution and packaging both succeed and whose INSTALL stage neither exits
non-zero nor times out (the spec's `FatalInstallFailure`) still exits 1,
because `find_blender_executable()` found no host executable and
`auto_install_to_blender` returned `False` before any stage ran (lines
453-461).  The claim's exhaustive list of non-zero-exit conditions misses
this case. -/
theorem main_exit_counterexample :
    main ⟨some "a", some "d", true, false⟩
      ⟨⟨false, none, []⟩, some (.dir "d" [.file "__init__.py"]), "d", none,
       false,
       ⟨false, ⟨.linux, .ok 0, [], .ok (), .ok ()⟩,
        .completed 0 "" "", .completed 0 "" "", .completed 0 "" "", false⟩⟩
      = 1 ∧
    dirResolved ⟨some "a", some "d", true, false⟩
      ⟨⟨false, none, []⟩, some (.dir "d" [.file "__init__.py"]), "d", none,
       false,
       ⟨false, ⟨.linux, .ok 0, [], .ok (), .ok ()⟩,
        .completed 0 "" "", .completed 0 "" "", .completed 0 "" "", false⟩⟩
      = true ∧
    packagingOk ⟨some "a", some "d", true, false⟩
      ⟨⟨false, none, []⟩, some (.dir "d" [.file "__init__.py"]), "d", none,
       false,
       ⟨false, ⟨.linux, .ok 0, [], .ok (), .ok ()⟩,
        .completed 0 "" "", .completed 0 "" "", .completed 0 "" "", false⟩⟩
      = true ∧
    ¬ specFatalInstallFailure
      ⟨false, ⟨.linux, .ok 0, [], .ok (), .ok ()⟩,
       .completed 0 "" "", .completed 0 "" "", .completed 0 "" "", false⟩ := by
  refine ⟨by decide, by decide, by decide, ?_⟩
  intro h
  rcases h with ⟨rc, out, err, he, hrc⟩ | he
  · rw [show (⟨false, ⟨.linux, .ok 0, [], .ok (), .ok ()⟩,
        .completed 0 "" "", .completed 0 "" "", .completed 0 "" "",
        false⟩ : InstallEnv).installRun = .completed 0 "" "" from rfl] at he
    cases he
    exact hrc rfl
  · rw [show (⟨false, ⟨.linux, .ok 0, [], .ok (), .ok ()⟩,
        .completed 0 "" "", .completed 0 "" "", .completed 0 "" "",
        false⟩ : InstallEnv).installRun = .completed 0 "" "" from rfl] at he
    cases he

/-- C9 amended: the exit code is always 0 or 1, and it is 0 exactly when
directory resolution succeeded, packaging succeeded, and — if install was
requested — the install orchestration reported success.  The orchestration
reports failure not only on the spec's `FatalInstallFailure` (non-zero exit
or timeout of the INSTALL stage) but also when the host executable cannot be
found, so that case also exits 1. -/
theorem main_exit_code_iff (args : Args) (env : MainEnv) :
    (main args env = 0 ∨ main args env = 1) ∧
    (main args env = 0 ↔
      (dirResolved args env = true ∧ packagingOk args env = true ∧
        (args.install = true →
          (auto_install_to_blender env.installEnv args.launch).success = true))) := by
  by_cases hd : dirResolved args env = true
  · rcases hzip :
        (create_addon_zip env.dirTree (resolvedName args env) env.zipExists).returned
      with _ | p
    · have hp : packagingOk args env = false := by
        simp [packagingOk, hzip]
      constructor
      · right
        simp [main, hd, hzip]
      · simp [main, hd, hzip, hp]
    · have hp : packagingOk args env = true := by
        simp [packagingOk, hzip]
      by_cases hi : args.install = true
      · by_cases hs :
            (auto_install_to_blender env.installEnv args.launch).success = true
        · constructor
          · left
            simp [main, hd, hzip, hi, hs]
          · simp [main, hd, hzip, hi, hs, hp]
        · constructor
          · right
            simp [main, hd, hzip, hi, hs]
          · simp [main, hd, hzip, hi, hs, hp]
      · constructor
        · left
          simp [main, hd, hzip, hi]
        · simp [main, hd, hzip, hi, hp]
  · have hd' : dirResolved args env = false := by simpa using hd
    constructor
    · right
      simp [main, hd']
    · simp [main, hd']

/-- Witness for the amended C9: a complete successful run (resolution,
packaging, and requested install all succeed) exits 0. -/
theorem main_exit_code_iff_witness :
    (main ⟨some "a", some "d", true, false⟩
      ⟨⟨false, none, []⟩, some (.dir "d" [.file "__init__.py"]), "d", none,
       false,
       ⟨true, ⟨.linux, .ok 0, [], .ok (), .ok ()⟩,
        .completed 0 "" "", .completed 0 "" "", .completed 0 "" "", false⟩⟩ = 0 ∨
     main ⟨some "a", some "d", true, false⟩
      ⟨⟨false, none, []⟩, some (.dir "d" [.file "__init__.py"]), "d", none,
       false,
       ⟨true, ⟨.linux, .ok 0, [], .ok (), .ok ()⟩,
        .completed 0 "" "", .completed 0 "" "", .completed 0 "" "", false⟩⟩ = 1) ∧
    (main ⟨some "a", some "d", true, false⟩
      ⟨⟨false, none, []⟩, some (.dir "d" [.file "__init__.py"]), "d", none,
       false,
       ⟨true, ⟨.linux, .ok 0, [], .ok (), .ok ()⟩,
        .completed 0 "" "", .completed 0 "" "", .completed 0 "" "", false⟩⟩ = 0 ↔
      (dirResolved ⟨some "a", some "d", true, false⟩
        ⟨⟨false, none, []⟩, some (.dir "d" [.file "__init__.py"]), "d", none,
         false,
         ⟨true, ⟨.linux, .ok 0, [], .ok (), .ok ()⟩,
          .completed 0 "" "", .completed 0 "" "", .completed 0 "" "", false⟩⟩ = true ∧
       packagingOk ⟨some "a", some "d", true, false⟩
        ⟨⟨false, none, []⟩, some (.dir "d" [.file "__init__.py"]), "d", none,
         false,
         ⟨true, ⟨.linux, .ok 0, [], .ok (), .ok ()⟩,
          .completed 0 "" "", .completed 0 "" "", .completed 0 "" "", false⟩⟩ = true ∧
       ((⟨some "a", some "d", true, false⟩ : Args).install = true →
         (auto_install_to_blender
           ⟨true, ⟨.linux, .ok 0, [], .ok (), .ok ()⟩,
            .completed 0 "" "", .completed 0 "" "", .completed 0 "" "", false⟩
           (⟨some "a", some "d", true, false⟩ : Args).launch).success = true))) :=
  main_exit_code_iff ⟨some "a", some "d", true, false⟩
    ⟨⟨false, none, []⟩, some (.dir "d" [.file "__init__.py"]), "d", none,
     false,
     ⟨true, ⟨.linux, .ok 0, [], .ok (), .ok ()⟩,
      .completed 0 "" "", .completed 0 "" "", .completed 0 "" "", false⟩⟩

/-! ## Claim C7 -/

/-- C7 counterexample: when the current directory itself qualifies, the
detection returns it immediately (line 91) without ever inspecting the
subdirectories, so a state with three qualifying candidates — the current
directory plus two qualifying immediate subdirectories — still succeeds, and
a full run over it exits 0; the claim requires failure for two or more
candidates. -/
theorem auto_detect_ambiguity_counterexample :
    specCandidateCount
      ⟨true, some "bl_info".data,
       [⟨"a", true, true, some "bl_info".data⟩,
        ⟨"b", true, true, some "bl_info".data⟩]⟩ = 3 ∧
    auto_detect_addon_dir
      ⟨true, some "bl_info".data,
       [⟨"a", true, true, some "bl_info".data⟩,
        ⟨"b", true, true, some "bl_info".data⟩]⟩ = .currentDir ∧
    main ⟨some "a", none, false, false⟩
      ⟨⟨true, some "bl_info".data,
        [⟨"a", true, true, some "bl_info".data⟩,
         ⟨"b", true, true, some "bl_info".data⟩]⟩,
       some (.dir "d" [.file "__init__.py"]), "d", none, false,
       ⟨true, ⟨.linux, .ok 0, [], .ok (), .ok ()⟩,
        .completed 0 "" "", .completed 0 "" "", .completed 0 "" "", false⟩⟩
      = 0 :=
  ⟨by decide, by decide, by decide⟩

/-- C7 amended: the current directory is inspected first and wins outright if
it qualifies; only otherwise are the immediate subdirectories consulted, and
then detection succeeds exactly when one subdirectory qualifies: with two or
more qualifying subdirectories the run fails (`AmbiguousExtension`, the
"Multiple add-on directories found" message) and `main` exits 1, and with
zero it fails (`NoExtensionFound`) and `main` exits 1. -/
theorem auto_detect_exactness (args : Args) (env : MainEnv)
    (hdir : args.addon_dir = none) :
    (selfQualifies env.cwd = true →
      auto_detect_addon_dir env.cwd = .currentDir) ∧
    (selfQualifies env.cwd = false →
      ((env.cwd.entries.filter entryQualifies).length ≥ 2 →
        auto_detect_addon_dir env.cwd = .multipleFound ∧ main args env = 1) ∧
      ((env.cwd.entries.filter entryQualifies).length = 0 →
        auto_detect_addon_dir env.cwd = .notFound ∧ main args env = 1) ∧
      (∀ e, env.cwd.entries.filter entryQualifies = [e] →
        auto_detect_addon_dir env.cwd = .subDir e.name)) := by
  constructor
  · intro hself
    simp [auto_detect_addon_dir, hself]
  · intro hself
    refine ⟨?_, ?_, ?_⟩
    · intro hlen
      rcases hfilter : env.cwd.entries.filter entryQualifies with _ | ⟨e, _ | ⟨f, fs⟩⟩
      · rw [hfilter] at hlen
        simp at hlen
      · rw [hfilter] at hlen
        simp at hlen
      · have hdet : auto_detect_addon_dir env.cwd = .multipleFound := by
          simp [auto_detect_addon_dir, hself, hfilter]
        refine ⟨hdet, ?_⟩
        simp [main, dirResolved, hdir, hdet]
    · intro hlen
      have hfilter : env.cwd.entries.filter entryQualifies = [] :=
        List.eq_nil_of_length_eq_zero hlen
      have hdet : auto_detect_addon_dir env.cwd = .notFound := by
        simp [auto_detect_addon_dir, hself, hfilter]
      refine ⟨hdet, ?_⟩
      simp [main, dirResolved, hdir, hdet]
    · intro e hfilter
      simp [auto_detect_addon_dir, hself, hfilter]

/-- Witness for the amended C7: a current directory that does not qualify and
has two qualifying subdirectories makes the run fail with the ambiguity
message and exit 1. -/
theorem auto_detect_exactness_witness :
    auto_detect_addon_dir
      ⟨false, none,
       [⟨"a", true, true, some "bl_info".data⟩,
        ⟨"b", true, true, some "bl_info".data⟩]⟩ = .multipleFound ∧
    main ⟨some "a", none, false, false⟩
      ⟨⟨false, none,
        [⟨"a", true, true, some "bl_info".data⟩,
         ⟨"b", true, true, some "bl_info".data⟩]⟩,
       some (.dir "d" [.file "__init__.py"]), "d", none, false,
       ⟨true, ⟨.linux, .ok 0, [], .ok (), .ok ()⟩,
        .completed 0 "" "", .completed 0 "" "", .completed 0 "" "", false⟩⟩
      = 1 :=
  ((auto_detect_exactness ⟨some "a", none, false, false⟩
      ⟨⟨false, none,
        [⟨"a", true, true, some "bl_info".data⟩,
         ⟨"b", true, true, some "bl_info".data⟩]⟩,
       some (.dir "d" [.file "__init__.py"]), "d", none, false,
       ⟨true, ⟨.linux, .ok 0, [], .ok (), .ok ()⟩,
        .completed 0 "" "", .completed 0 "" "", .completed 0 "" "", false⟩⟩
      rfl).2 (by decide)).1 (by decide)

/-! ## Claim C10 -/

/-- C10: every immediate subdirectory whose name starts with a dot is skipped
by auto-detection — it never qualifies as a candidate, whatever its contents
— and the detection result is unchanged when all hidden entries are removed,
so only non-hidden subdirectories can make the candidate set ambiguous. -/
theorem hidden_entries_never_candidates (cwd : Cwd) :
    (∀ e ∈ cwd.entries, pyStartsWith e.name "." = true → entryQualifies e = false) ∧
    auto_detect_addon_dir cwd
      = auto_detect_addon_dir
          { cwd with entries := cwd.entries.filter (fun e => !(pyStartsWith e.name ".")) } := by
  constructor
  · intro e _ hdot
    simp [entryQualifies, hdot]
  · have hfilter :
        (cwd.entries.filter (fun e => !(pyStartsWith e.name "."))).filter entryQualifies
          = cwd.entries.filter entryQualifies := by
      rw [List.filter_filter]
      apply List.filter_congr
      intro e _
      by_cases hdot : pyStartsWith e.name "."
      · simp [entryQualifies, hdot]
      · simp [hdot]
    simp only [auto_detect_addon_dir, selfQualifies, hfilter]

/-- Witness for C10: a hidden subdirectory containing a qualifying entry
point is not counted, so detection still resolves to the unique non-hidden
candidate. -/
theorem hidden_entries_never_candidates_witness :
    entryQualifies ⟨".secret", true, true, some "bl_info".data⟩ = false ∧
    auto_detect_addon_dir
      ⟨false, none,
       [⟨".secret", true, true, some "bl_info".data⟩,
        ⟨"good", true, true, some "bl_info".data⟩]⟩
      = auto_detect_addon_dir
        { (⟨false, none,
           [⟨".secret", true, true, some "bl_info".data⟩,
            ⟨"good", true, true, some "bl_info".data⟩]⟩ : Cwd) with
          entries := List.filter (fun e => !(pyStartsWith e.name "."))
           [⟨".secret", true, true, some "bl_info".data⟩,
            ⟨"good", true, true, some "bl_info".data⟩] } :=
  ⟨(hidden_entries_never_candidates
      ⟨false, none,
       [⟨".secret", true, true, some "bl_info".data⟩,
        ⟨"good", true, true, some "bl_info".data⟩]⟩).1
    _ (List.mem_cons_self _ _) (by decide),
   (hidden_entries_never_candidates
      ⟨false, none,
       [⟨".secret", true, true, some "bl_info".data⟩,
        ⟨"good", true, true, some "bl_info".data⟩]⟩).2⟩

end BlenderAddonDev
